import Mathlib

/-!
Verification development for inestool, a tool that reads and corrects iNES
cartridge headers.  The Python source (inestool.py) is shallowly embedded
below: byte strings become `List Nat` (each element one byte), Python ints
become `Int` where sign matters and `Nat` for flag/enum fields, fallible
code returns `Except`, and the mutable parts (the zip rebuild, the database
merge) become explicit state passing.  Every definition is translated from
the source; theorems at the end settle the specification claims.
-/

namespace Inestool

/-! Constants from class ROMInfo. -/

def MIRROR_HORIZONTAL : Nat := 0
def MIRROR_VERTICAL : Nat := 1
def MIRROR_FOUR_SCREEN : Nat := 8
def MIRROR_FOUR_SCREEN_ODD : Nat := 9
-- Mapper-controlled mirroring sentinel; chosen so that it turns into
-- MIRROR_HORIZONTAL when masked with 0xF while writing an iNES header.
def MIRROR_CONTROLLED : Nat := 16

def TV_NTSC : Nat := 0
def TV_PAL : Nat := 1
-- Sentinel for ROMs used for both TV systems; turns into TV_NTSC when
-- masked with 1 while writing an iNES header.
def TV_BOTH : Nat := 2

/-- The ROMInfo record.  Size fields and the mapper are `Int` because the
source range-checks them against negative values; flag/enum fields that only
ever hold small nonnegative values and go through bit operations are `Nat`;
the four boolean flags are `Bool`. -/
structure ROMInfo where
  prg_rom_size : Int
  prg_ram_size : Int
  chr_rom_size : Int
  mapper : Int
  mirroring : Nat
  tv_system : Nat
  has_nvram : Bool
  has_trainer : Bool
  is_playchoice_10 : Bool
  is_vs_unisystem : Bool
deriving Repr, DecidableEq

/-- ROMInfo.__init__: the Python constructor only assigns the attributes and
performs no validation whatsoever, so it always succeeds.  The `Except`
return type records that a Python constructor could in principle raise; this
one never does. -/
def ROMInfo.init (prg_rom_size prg_ram_size chr_rom_size mapper : Int)
    (mirroring tv_system : Nat)
    (has_nvram has_trainer is_playchoice_10 is_vs_unisystem : Bool) :
    Except String ROMInfo :=
  .ok {
    prg_rom_size := prg_rom_size
    prg_ram_size := prg_ram_size
    chr_rom_size := chr_rom_size
    mapper := mapper
    mirroring := mirroring
    tv_system := tv_system
    has_nvram := has_nvram
    has_trainer := has_trainer
    is_playchoice_10 := is_playchoice_10
    is_vs_unisystem := is_vs_unisystem }

/-- How header parsing can fail: the SkipROM exception (format deliberately
unsupported) or the AssertionError from `assert len(header_bytes) >= 16`. -/
inductive ParseError where
  | assertionError
  | skipROM (msg : String)
deriving Repr, DecidableEq

/-- parse_header.  The source asserts `len(header_bytes) >= 16` before
anything else; the catch-all match arm models the AssertionError raised on
shorter inputs.  Indexing `header_bytes[i]` becomes the pattern variable
`bi`; `startswith` on a 4-byte magic becomes equality on the first four
bytes.  `.ok none` is Python `return None` ("no header"). -/
def parse_header (header_bytes : List Nat) : Except ParseError (Option ROMInfo) :=
  match header_bytes with
  | b0 :: b1 :: b2 :: b3 :: b4 :: b5 :: b6 :: b7 :: b8 :: b9 ::
      _b10 :: _b11 :: _b12 :: _b13 :: _b14 :: _b15 :: _rest =>
    if [b0, b1, b2, b3] = [0x55, 0x4E, 0x49, 0x46] then
      .error (.skipROM "UNIF currently unsupported")
    else if [b0, b1, b2, b3] ≠ [0x4E, 0x45, 0x53, 0x1A] then
      .ok none
    else if b7 &&& 0xC = 8 then
      .error (.skipROM "NES 2.0 currently unsupported")
    else if b6 &&& 4 ≠ 0 then
      .error (.skipROM "ROMs with trainers currently unsupported")
    else
      .ok (some {
        prg_rom_size := (b4 : Int) * 16384
        chr_rom_size := (b5 : Int) * 8192
        mapper := (((b7 &&& 0xF0) + ((b6 &&& 0xF0) >>> 4) : Nat) : Int)
        mirroring := b6 &&& 9
        has_trainer := b6 &&& 4 != 0
        has_nvram := b6 &&& 2 != 0
        is_playchoice_10 := b7 &&& 2 != 0
        is_vs_unisystem := b7 &&& 1 != 0
        prg_ram_size := (b8 : Int) * 8192
        tv_system := b9 &&& 1 })
  | _ => .error .assertionError

/-! The checksum engine: binascii.crc32, the standard reflected CRC-32
(polynomial 0xEDB88320), with pre- and post-inversion, computed bitwise. -/

def crc32_step (crc : Nat) (b : Nat) : Nat :=
  (List.range 8).foldl
    (fun c _ => if c &&& 1 = 1 then (c >>> 1) ^^^ 0xEDB88320 else c >>> 1)
    (crc ^^^ (b &&& 0xFF))

/-- binascii.crc32(data, value): invert the running value, fold the data
bytes through the bitwise CRC rounds, invert again.  The incremental use
`binascii.crc32(chunk, crc)` chains exactly because the two inversions
cancel (`binascii_crc32_append` below). -/
def binascii_crc32 (data : List Nat) (value : Nat) : Nat :=
  (data.foldl crc32_step (value ^^^ 0xFFFFFFFF)) ^^^ 0xFFFFFFFF

/-- IOHandler._make_file_info: read the first 16 bytes, parse them (a
SkipROM is logged and re-raised, an AssertionError propagates); if a header
was parsed start the checksum at 0, otherwise seed it with the checksum of
the 16 inspected bytes; then fold the rest of the entity through the
checksum (the source does this in 65536-byte chunks, which computes the same
value because binascii.crc32 chains).  The stored checksum is the final
value masked to 32 bits, as in `"%08X" % (crc32 & 0xFFFFFFFF)`. -/
def make_file_info (data : List Nat) : Except ParseError (Option ROMInfo × Nat) :=
  match parse_header (data.take 16) with
  | .error e => .error e
  | .ok rom_info =>
    let crc0 : Nat :=
      match rom_info with
      | some _ => 0
      | none => binascii_crc32 (data.take 16) 0
    .ok (rom_info, binascii_crc32 (data.drop 16) crc0 &&& 0xFFFFFFFF)

/-- Outcome of FileIOHandler.__iter__ on one bare file: SkipROM is caught
and yields an empty enumeration, every other exception (in particular the
AssertionError for short inputs) propagates and aborts the pass. -/
inductive IterOutcome where
  | items (l : List (Option ROMInfo × Nat))
  | aborted
deriving Repr, DecidableEq

def file_handler_items (data : List Nat) : IterOutcome :=
  match make_file_info data with
  | .ok fi => .items [fi]
  | .error (.skipROM _) => .items []
  | .error .assertionError => .aborted

/-! ROMInfo.diff and its helpers.  getattr over the FIELDS tuple becomes a
string-indexed getter returning a tagged value. -/

inductive FieldVal where
  | int (v : Int)
  | nat (v : Nat)
  | bool (v : Bool)
deriving Repr, DecidableEq

/-- getattr(self, attr) for the ten entries of ROMInfo.FIELDS. -/
def ROMInfo.getField (r : ROMInfo) (attr : String) : FieldVal :=
  if attr = "prg_rom_size" then .int r.prg_rom_size
  else if attr = "prg_ram_size" then .int r.prg_ram_size
  else if attr = "chr_rom_size" then .int r.chr_rom_size
  else if attr = "mapper" then .int r.mapper
  else if attr = "mirroring" then .nat r.mirroring
  else if attr = "tv_system" then .nat r.tv_system
  else if attr = "has_nvram" then .bool r.has_nvram
  else if attr = "has_trainer" then .bool r.has_trainer
  else if attr = "is_playchoice_10" then .bool r.is_playchoice_10
  else .bool r.is_vs_unisystem

/-- ROMInfo.FIELDS, in the order of FIELD_LABELS. -/
def FIELDS : List String :=
  ["prg_rom_size", "prg_ram_size", "chr_rom_size", "mapper", "mirroring",
   "tv_system", "has_nvram", "has_trainer", "is_playchoice_10",
   "is_vs_unisystem"]

/-- ROMInfo._is_ignored_mirroring_diff: the difference is ignored when one
value is MIRROR_CONTROLLED and neither is four-screen. -/
def is_ignored_mirroring_diff (mirror_val_a mirror_val_b : Nat) : Bool :=
  ((mirror_val_a ||| mirror_val_b) &&& (MIRROR_CONTROLLED ||| MIRROR_FOUR_SCREEN))
    == MIRROR_CONTROLLED

/-- _is_ignored_mirroring_diff applied to the dynamically-typed field
values; only ever reached with the two Nat mirroring values. -/
def mirroring_ignored_val (self_val other_val : FieldVal) : Bool :=
  match self_val, other_val with
  | .nat a, .nat b => is_ignored_mirroring_diff a b
  | _, _ => false

/-- The condition under which ROMInfo.diff records field `attr` as a
difference: values unequal, and neither the mirroring exception nor the
TV-timing exception (`self.TV_BOTH in (self_val, other_val)`) applies. -/
def diffCond (self other : ROMInfo) (attr : String) : Prop :=
  self.getField attr ≠ other.getField attr ∧
    ¬((attr = "mirroring" ∧
        mirroring_ignored_val (self.getField attr) (other.getField attr) = true) ∨
      (attr = "tv_system" ∧
        (self.getField attr = FieldVal.nat TV_BOTH ∨
         other.getField attr = FieldVal.nat TV_BOTH)))

instance decDiffCond (self other : ROMInfo) (attr : String) :
    Decidable (diffCond self other attr) := by
  unfold diffCond; infer_instance

/-- One iteration of the loop in ROMInfo.diff: the optional
`differences[attr] = (self_val, other_val)` entry. -/
def ROMInfo.diffEntry (self other : ROMInfo) (attr : String) :
    Option (String × FieldVal × FieldVal) :=
  if diffCond self other attr then
    some (attr, self.getField attr, other.getField attr)
  else none

/-- ROMInfo.diff: the ordered dict of differing fields with their
(self value, other value) pairs. -/
def ROMInfo.diff (self other : ROMInfo) : List (String × FieldVal × FieldVal) :=
  FIELDS.filterMap (self.diffEntry other)

/-! make_ines_header and WritableIOHandler._update_file. -/

/-- make_ines_header.  Python `x & 16383` on an int equals `x % 16384` here
(both are the least nonnegative residue); `int(math.ceil(x / 8192.0))` is
the integer round-up `(x + 8191) / 8192`, exact for the in-range values that
reach it (the float quotient of numbers below 2^22 by 2^13 is exact).
`.toNat` after each range check converts the already-nonnegative quantity
for byte assembly.  Note the result: the 4 magic bytes plus the six computed
bytes, ten bytes in total. -/
def make_ines_header (rom_info : ROMInfo) : Except String (List Nat) :=
  if rom_info.prg_rom_size % 16384 ≠ 0 ∨ 0xFF * 16384 < rom_info.prg_rom_size ∨
      rom_info.prg_rom_size < 0 then
    .error "cannot represent PRG ROM size in iNES header"
  else if rom_info.chr_rom_size % 8192 ≠ 0 ∨ 0xFF * 8192 < rom_info.chr_rom_size ∨
      rom_info.chr_rom_size < 0 then
    .error "cannot represent CHR ROM size in iNES header"
  else if rom_info.mapper < 0 ∨ 255 < rom_info.mapper then
    .error "cannot represent mapper in iNES header"
  else if 0xFF * 8192 < rom_info.prg_ram_size ∨ rom_info.prg_ram_size < 0 then
    .error "cannot represent PRG RAM size in iNES header"
  else
    .ok [0x4E, 0x45, 0x53, 0x1A,
      (rom_info.prg_rom_size / 16384).toNat,
      (rom_info.chr_rom_size / 8192).toNat,
      ((rom_info.mapper.toNat &&& 0xF) <<< 4) ||| (rom_info.mirroring &&& 0xF) |||
        (rom_info.has_trainer.toNat <<< 2) ||| (rom_info.has_nvram.toNat <<< 1),
      (rom_info.mapper.toNat &&& 0xF0) ||| (rom_info.is_playchoice_10.toNat <<< 1) |||
        rom_info.is_vs_unisystem.toNat,
      ((rom_info.prg_ram_size + 8191) / 8192).toNat,
      rom_info.tv_system &&& 1]

/-- The two UpdateRequest types (REQ_HEADER_INSERT, REQ_HEADER_REPLACE);
the enum is closed so the source's `raise Exception("unknown request type")`
arm is unreachable here. -/
inductive ReqType where
  | insert
  | replace
deriving Repr, DecidableEq

/-- The effect of one request inside WritableIOHandler._update_file on the
target file's bytes: REPLACE opens the file read-write and overwrites its
first `len(header_bytes)` bytes in place; INSERT writes the header to a
fresh temporary file, appends a full copy of the original, and renames it
over the original. -/
def apply_request (content : List Nat) (request : ReqType × ROMInfo) :
    Except String (List Nat) :=
  match make_ines_header request.2 with
  | .error e => .error e
  | .ok header_bytes =>
    match request.1 with
    | .replace => .ok (header_bytes ++ content.drop header_bytes.length)
    | .insert => .ok (header_bytes ++ content)

/-- WritableIOHandler._update_file: apply each request to the file in
order; the first failing request aborts the loop. -/
def update_file (content : List Nat) :
    List (ReqType × ROMInfo) → Except String (List Nat)
  | [] => .ok content
  | request :: rest =>
    match apply_request content request with
    | .error e => .error e
    | .ok c => update_file c rest

/-! ZipIOHandler.update.  The filesystem is a map from paths to zip
contents (member name, member bytes); the archive being updated and the
temporary archive next to it are the only paths touched. -/

def FileSys : Type := String → Option (List (String × List Nat))

def setFile (fs : FileSys) (p : String) (c : List (String × List Nat)) : FileSys :=
  fun q => if q = p then some c else fs q

def removeFile (fs : FileSys) (p : String) : FileSys :=
  fun q => if q = p then none else fs q

/-- The member loop of ZipIOHandler.update: extract each original member,
pop its pending requests (`requests_by_file.pop(name, ())`), run
_update_file on the extracted copy, and append the result to the new
archive being written.  Returns the members written so far, the requests
still pending, and the first error if one was raised. -/
def zip_rebuild (members : List (String × List Nat))
    (pending : List (String × ReqType × ROMInfo))
    (written : List (String × List Nat)) :
    List (String × List Nat) × List (String × ReqType × ROMInfo) × Option String :=
  match members with
  | [] => (written, pending, none)
  | (name, content) :: rest =>
    match update_file content ((pending.filter (fun r => r.1 == name)).map (·.2)) with
    | .error e => (written, pending.filter (fun r => r.1 != name), some e)
    | .ok newContent =>
      zip_rebuild rest (pending.filter (fun r => r.1 != name))
        (written ++ [(name, newContent)])

/-- The tail of ZipIOHandler.update once the rebuild loop has run, taking
the loop's result: if an error was raised, or requests for unknown member
names are left over (`if requests_by_file: raise`), the `finally` block
removes the temporary archive — which holds the members written so far —
and the error propagates; otherwise the temporary archive is renamed over
the original. -/
def zip_finish (fs1 : FileSys) (path temp : String) :
    List (String × List Nat) × List (String × ReqType × ROMInfo) × Option String →
    FileSys × Option String
  | (written, _, some e) => (removeFile (setFile fs1 temp written) temp, some e)
  | (written, pendingLeft, none) =>
    if pendingLeft.isEmpty then
      (setFile (removeFile (setFile fs1 temp written) temp) path written, none)
    else
      (removeFile (setFile fs1 temp written) temp, some "requests for unknown files")

/-- ZipIOHandler.update after the temporary archive exists, taking the
result of opening the original archive: failure to open raises and the
`finally` block removes the temporary archive; otherwise the rebuild loop
runs and zip_finish commits or rolls back. -/
def zip_open (fs1 : FileSys) (path temp : String)
    (requests : List (String × ReqType × ROMInfo)) :
    Option (List (String × List Nat)) → FileSys × Option String
  | none => (removeFile fs1 temp, some "cannot open zip file")
  | some members => zip_finish fs1 path temp (zip_rebuild members requests [])

/-- ZipIOHandler.update as a filesystem transformer: create the temporary
archive next to the original, open the original, rebuild, and commit only
via the final rename.  Returns the resulting filesystem and the raised
error, if any. -/
def zip_update (fs : FileSys) (path temp : String)
    (requests : List (String × ReqType × ROMInfo)) : FileSys × Option String :=
  zip_open (setFile fs temp []) path temp requests (setFile fs temp [] path)

/-! The reference database: parse_db_entry's mirroring rule and load_db's
merge step. -/

/-- A `<pad>` element: the parsed h and v attributes
(`int(pad.attrib.get("h", "0"))`), and whether the element has child
elements — an xml.etree Element is truthy exactly when it has children,
which is what the source's `if pad and ...` tests. -/
structure PadElem where
  h : Int
  v : Int
  hasChildren : Bool
deriving Repr, DecidableEq

def FOUR_SCREEN_BOARDS : List String :=
  ["NES-DRROM", "NES-TR1ROM", "TENGEN-800004", "NES-TVROM",
   "IREM-74*161/161/21/138", "HVC-DRROM", "HVC-TVROM"]

/-- The mirroring derivation of parse_db_entry, covering the pad-attribute
validation and the board-type dispatch.  `board_type` is
`board.attrib.get("type")`; a missing `<pad>` element is `none`.  Python
int truthiness is `≠ 0`; the four-screen branch's `if pad and (pad_h or
pad_v)` tests the pad Element's truthiness, i.e. whether it has children. -/
def parse_db_mirroring (board_type : Option String) (pad : Option PadElem)
    (crc32 : String) : Except String Nat :=
  match pad with
  | none =>
    -- pad_h = pad_v = None; the four-screen branch's pad test is falsy.
    if (match board_type with
        | some t => FOUR_SCREEN_BOARDS.contains t
        | none => false) then
      .ok MIRROR_FOUR_SCREEN
    else
      -- elif pad is None: mapper-controlled
      .ok MIRROR_CONTROLLED
  | some pad =>
    if pad.h ≠ 0 ∧ pad.v ≠ 0 then
      .error ("both H and V solder pads set on " ++ crc32)
    else if ¬(pad.h ≠ 0 ∨ pad.v ≠ 0) then
      .error ("neither H nor V set on pad element of " ++ crc32)
    else if (match board_type with
        | some t => FOUR_SCREEN_BOARDS.contains t
        | none => false) then
      if pad.hasChildren ∧ (pad.h ≠ 0 ∨ pad.v ≠ 0) then
        .error ("H and/or V pads set on four screen mirroring game " ++ crc32)
      else .ok MIRROR_FOUR_SCREEN
    else if pad.h ≠ 0 then .ok MIRROR_VERTICAL
    else if pad.v ≠ 0 then .ok MIRROR_HORIZONTAL
    else .error "should never get here"

/-- The dynamically-typed values that load_db's duplicate test compares:
`differences.pop("tv_system", None)` is either None or an (int, int) tuple
of field values, and it is compared with `==` against the int TV_BOTH and
against the new record's int tv_system.  Python's `==` across these types
is false unless both sides have the same shape. -/
inductive PyVal where
  | int (v : Int)
  | tup (a b : FieldVal)
  | none
deriving Repr, DecidableEq

def pyEq : PyVal → PyVal → Bool
  | .int a, .int b => a == b
  | .tup a b, .tup c d => a == c && b == d
  | .none, .none => true
  | _, _ => false

/-- Which warning, if any, the merge branch of load_db logs. -/
inductive MergeLog where
  | differingWarning
  | duplicateWarning
  | upgraded
deriving Repr, DecidableEq

/-- The body of load_db's `if existing_rom_info:` branch: diff the existing
record against the new one, pop the tv_system difference, and either warn
about differing entries (keeping the existing record), warn about a
duplicate (discarding the new record), or upgrade the existing record's TV
system to TV_BOTH in place.  Returns the record now stored for the
checksum and what was logged. -/
def mergeEntry (existing_rom_info rom_info : ROMInfo) : ROMInfo × MergeLog :=
  let differences := existing_rom_info.diff rom_info
  let existing_tv_system : PyVal :=
    match differences.find? (fun e => e.1 == "tv_system") with
    | some e => .tup e.2.1 e.2.2
    | none => .none
  let differences := differences.filter (fun e => e.1 ≠ "tv_system")
  if differences ≠ [] then
    (existing_rom_info, .differingWarning)
  else if pyEq existing_tv_system (.int (TV_BOTH : Int)) ||
      pyEq (.int (rom_info.tv_system : Int)) existing_tv_system then
    (existing_rom_info, .duplicateWarning)
  else
    ({ existing_rom_info with tv_system := TV_BOTH }, .upgraded)

/-- One `end`-event iteration of load_db over a cartridge/arcade element
already parsed into (crc32, rom_info): merge into the existing entry or
insert a fresh one. -/
def load_db_step (st : List (String × ROMInfo) × List MergeLog)
    (entry : String × ROMInfo) : List (String × ROMInfo) × List MergeLog :=
  let (db, logs) := st
  match db.find? (fun p => p.1 == entry.1) with
  | some p =>
    let (r, log) := mergeEntry p.2 entry.2
    (db.map (fun q => if q.1 == entry.1 then (q.1, r) else q), logs ++ [log])
  | none => (db ++ [entry], logs)

/-- load_db over a corpus of already-parsed entries, with the warnings it
logs along the way. -/
def load_db (entries : List (String × ROMInfo)) :
    List (String × ROMInfo) × List MergeLog :=
  entries.foldl load_db_step ([], [])

/-- A representative in-range record for concrete evaluations: 32 KiB PRG
ROM, 8 KiB CHR ROM, mapper 0, horizontal mirroring, NTSC, no flags. -/
def sample_record : ROMInfo :=
  { prg_rom_size := 32768, prg_ram_size := 0, chr_rom_size := 8192,
    mapper := 0, mirroring := 0, tv_system := 0, has_nvram := false,
    has_trainer := false, is_playchoice_10 := false, is_vs_unisystem := false }

/-- A record exercising the lossy round-trip fields: 16 KiB PRG ROM, CHR
RAM, mapper 1, vertical mirroring, TV timing "both", a 2 KiB PRG RAM (as in
Crisis Force), battery present. -/
def lossy_record : ROMInfo :=
  { prg_rom_size := 16384, prg_ram_size := 2048, chr_rom_size := 0,
    mapper := 1, mirroring := 1, tv_system := 2, has_nvram := true,
    has_trainer := false, is_playchoice_10 := false, is_vs_unisystem := true }

/-- A one-archive filesystem: "roms.zip" holds a single 32-byte headerless
member "game.nes". -/
def sample_fs : FileSys :=
  fun q => if q = "roms.zip" then some [("game.nes", List.replicate 32 0)] else none

end Inestool

namespace Inestool

/-! Theorems settling the specification claims. -/

/-- C1: the header-write operation does not produce 16 bytes.  On a
representative in-range record it returns exactly the 4 magic bytes plus the
six computed bytes — 10 bytes, with no zero padding at offsets 10–15 — and a
bare-file insert-header on a 100-byte payload therefore yields a 110-byte
file (header followed by the payload), not a 116-byte one. -/
theorem c1_header_is_ten_bytes :
    make_ines_header sample_record = .ok [0x4E, 0x45, 0x53, 0x1A, 2, 1, 0, 0, 0, 0] ∧
    ([0x4E, 0x45, 0x53, 0x1A, 2, 1, 0, 0, 0, 0] : List Nat).length = 10 ∧
    update_file (List.replicate 100 0xAB) [(ReqType.insert, sample_record)] =
      .ok ([0x4E, 0x45, 0x53, 0x1A, 2, 1, 0, 0, 0, 0] ++ List.replicate 100 0xAB) ∧
    (([0x4E, 0x45, 0x53, 0x1A, 2, 1, 0, 0, 0, 0] : List Nat) ++
      List.replicate 100 0xAB).length = 110 := by
  refine ⟨?_, ?_, ?_, ?_⟩ <;> rfl

/-- C3: loading the same corpus entry twice for the same checksum does not
leave the record unchanged with a duplicate warning.  The duplicate branch
compares the popped tv_system difference (a tuple or None) against ints, so
it can never fire; instead load_db silently "upgrades" the stored record's
TV timing to TV_BOTH and logs the upgrade, not a duplicate warning. -/
theorem c3_duplicate_entry_upgrades_tv :
    load_db [("ABCD1234", sample_record)] = ([("ABCD1234", sample_record)], []) ∧
    load_db [("ABCD1234", sample_record), ("ABCD1234", sample_record)] =
      ([("ABCD1234", { sample_record with tv_system := TV_BOTH })],
       [MergeLog.upgraded]) ∧
    ({ sample_record with tv_system := TV_BOTH }) ≠ sample_record ∧
    MergeLog.upgraded ≠ MergeLog.duplicateWarning := by
  refine ⟨rfl, rfl, by decide, by decide⟩

/-- C4 counterexample: constructing a ROMInfo whose PRG-ROM size is
256·16384 bytes (unit count 256, outside [0,255]) is not a checked error —
the constructor performs no validation and returns the record with the
out-of-range field intact (not truncated either). -/
theorem c4_constructor_accepts_out_of_range :
    ROMInfo.init (256 * 16384) 0 0 0 0 0 false false false false =
      .ok { prg_rom_size := 256 * 16384, prg_ram_size := 0, chr_rom_size := 0,
            mapper := 0, mirroring := 0, tv_system := 0, has_nvram := false,
            has_trainer := false, is_playchoice_10 := false,
            is_vs_unisystem := false } := rfl

/-- C4 amended: the range check happens at encoding time instead — for any
record with an out-of-range PRG-ROM, CHR-ROM, or PRG-RAM size,
make_ines_header raises a representation error rather than silently
truncating the field. -/
theorem c4_encode_rejects_out_of_range (r : ROMInfo)
    (h : 0xFF * 16384 < r.prg_rom_size ∨ r.prg_rom_size < 0 ∨
         0xFF * 8192 < r.chr_rom_size ∨ r.chr_rom_size < 0 ∨
         0xFF * 8192 < r.prg_ram_size ∨ r.prg_ram_size < 0) :
    ∃ msg, make_ines_header r = .error msg := by
  unfold make_ines_header
  split_ifs with h1 h2 h3 h4
  · exact ⟨_, rfl⟩
  · exact ⟨_, rfl⟩
  · exact ⟨_, rfl⟩
  · exact ⟨_, rfl⟩
  · exfalso; push_neg at h1 h2 h4; omega

theorem c4_encode_rejects_out_of_range_w :
    ∃ msg, make_ines_header { sample_record with prg_rom_size := 256 * 16384 } =
      .error msg :=
  c4_encode_rejects_out_of_range
    { sample_record with prg_rom_size := 256 * 16384 } (by decide)

/-- C5: the mirroring priority rule holds except for its four-screen
conflict clause.  Both pad bits set, or neither set, is a data error; no pad
element means mapper-controlled; a lone h pad gives vertical and a lone v
pad gives horizontal mirroring.  But a four-screen allow-list board with a
declared solder-pad preference is NOT an error: the conflict check tests the
pad element's truthiness, which is false for the childless <pad h="1"/>
elements the corpus contains, so the code silently returns four-screen. -/
theorem c5_four_screen_pad_conflict_not_raised :
    parse_db_mirroring (some "NES-TVROM")
      (some { h := 1, v := 0, hasChildren := false }) "C5" = .ok MIRROR_FOUR_SCREEN ∧
    parse_db_mirroring (some "NES-BOARD")
      (some { h := 1, v := 1, hasChildren := false }) "C5" =
      .error "both H and V solder pads set on C5" ∧
    parse_db_mirroring (some "NES-BOARD")
      (some { h := 0, v := 0, hasChildren := false }) "C5" =
      .error "neither H nor V set on pad element of C5" ∧
    parse_db_mirroring (some "NES-BOARD") none "C5" = .ok MIRROR_CONTROLLED ∧
    parse_db_mirroring (some "NES-BOARD")
      (some { h := 1, v := 0, hasChildren := false }) "C5" = .ok MIRROR_VERTICAL ∧
    parse_db_mirroring (some "NES-BOARD")
      (some { h := 0, v := 1, hasChildren := false }) "C5" = .ok MIRROR_HORIZONTAL := by
  refine ⟨?_, ?_, ?_, ?_, ?_, ?_⟩ <;> rfl

/-- Any byte list of length at least 16 splits into 16 explicit leading
bytes and a tail. -/
theorem exists_cons_16 (bs : List Nat) (h : 16 ≤ bs.length) :
    ∃ b0 b1 b2 b3 b4 b5 b6 b7 b8 b9 b10 b11 b12 b13 b14 b15 rest,
      bs = b0 :: b1 :: b2 :: b3 :: b4 :: b5 :: b6 :: b7 :: b8 :: b9 ::
        b10 :: b11 :: b12 :: b13 :: b14 :: b15 :: rest := by
  obtain _ | ⟨b0, bs⟩ := bs; · simp only [List.length_nil] at h; omega
  obtain _ | ⟨b1, bs⟩ := bs; · simp only [List.length_cons, List.length_nil] at h; omega
  obtain _ | ⟨b2, bs⟩ := bs; · simp only [List.length_cons, List.length_nil] at h; omega
  obtain _ | ⟨b3, bs⟩ := bs; · simp only [List.length_cons, List.length_nil] at h; omega
  obtain _ | ⟨b4, bs⟩ := bs; · simp only [List.length_cons, List.length_nil] at h; omega
  obtain _ | ⟨b5, bs⟩ := bs; · simp only [List.length_cons, List.length_nil] at h; omega
  obtain _ | ⟨b6, bs⟩ := bs; · simp only [List.length_cons, List.length_nil] at h; omega
  obtain _ | ⟨b7, bs⟩ := bs; · simp only [List.length_cons, List.length_nil] at h; omega
  obtain _ | ⟨b8, bs⟩ := bs; · simp only [List.length_cons, List.length_nil] at h; omega
  obtain _ | ⟨b9, bs⟩ := bs; · simp only [List.length_cons, List.length_nil] at h; omega
  obtain _ | ⟨b10, bs⟩ := bs; · simp only [List.length_cons, List.length_nil] at h; omega
  obtain _ | ⟨b11, bs⟩ := bs; · simp only [List.length_cons, List.length_nil] at h; omega
  obtain _ | ⟨b12, bs⟩ := bs; · simp only [List.length_cons, List.length_nil] at h; omega
  obtain _ | ⟨b13, bs⟩ := bs; · simp only [List.length_cons, List.length_nil] at h; omega
  obtain _ | ⟨b14, bs⟩ := bs; · simp only [List.length_cons, List.length_nil] at h; omega
  obtain _ | ⟨b15, bs⟩ := bs; · simp only [List.length_cons, List.length_nil] at h; omega
  exact ⟨b0, b1, b2, b3, b4, b5, b6, b7, b8, b9, b10, b11, b12, b13, b14, b15, bs, rfl⟩

/-- binascii.crc32 chains: seeding a CRC computation with the CRC of an
earlier chunk computes the CRC of the concatenation (the pre- and
post-inversions cancel). -/
theorem binascii_crc32_append (a b : List Nat) (v : Nat) :
    binascii_crc32 b (binascii_crc32 a v) = binascii_crc32 (a ++ b) v := by
  unfold binascii_crc32
  rw [List.foldl_append]
  congr 1
  congr 1
  rw [Nat.xor_assoc, Nat.xor_self, Nat.xor_zero]

theorem make_file_info_of_parse_none (data : List Nat)
    (hp : parse_header (data.take 16) = .ok none) :
    make_file_info data = .ok (none, binascii_crc32 data 0 &&& 0xFFFFFFFF) := by
  unfold make_file_info
  rw [hp]
  show Except.ok (none, binascii_crc32 (data.drop 16) (binascii_crc32 (data.take 16) 0)
      &&& 0xFFFFFFFF) = _
  rw [binascii_crc32_append, List.take_append_drop]

theorem make_file_info_of_parse_some (data : List Nat) (r : ROMInfo)
    (hp : parse_header (data.take 16) = .ok (some r)) :
    make_file_info data = .ok (some r, binascii_crc32 (data.drop 16) 0 &&& 0xFFFFFFFF) := by
  unfold make_file_info
  rw [hp]

/-- C10: parse_header demands at least 16 input bytes; any shorter entity
fails the assertion, the failure propagates through _make_file_info (which
only catches and re-raises SkipROM), and the bare-file enumeration aborts
instead of treating the input as a headerless ROM or skipping it. -/
theorem c10_short_input_raises_assertion (data : List Nat) (h : data.length < 16) :
    parse_header data = .error .assertionError ∧
    make_file_info data = .error .assertionError ∧
    file_handler_items data = .aborted := by
  obtain _ | ⟨b0, data⟩ := data; · exact ⟨rfl, rfl, rfl⟩
  obtain _ | ⟨b1, data⟩ := data; · exact ⟨rfl, rfl, rfl⟩
  obtain _ | ⟨b2, data⟩ := data; · exact ⟨rfl, rfl, rfl⟩
  obtain _ | ⟨b3, data⟩ := data; · exact ⟨rfl, rfl, rfl⟩
  obtain _ | ⟨b4, data⟩ := data; · exact ⟨rfl, rfl, rfl⟩
  obtain _ | ⟨b5, data⟩ := data; · exact ⟨rfl, rfl, rfl⟩
  obtain _ | ⟨b6, data⟩ := data; · exact ⟨rfl, rfl, rfl⟩
  obtain _ | ⟨b7, data⟩ := data; · exact ⟨rfl, rfl, rfl⟩
  obtain _ | ⟨b8, data⟩ := data; · exact ⟨rfl, rfl, rfl⟩
  obtain _ | ⟨b9, data⟩ := data; · exact ⟨rfl, rfl, rfl⟩
  obtain _ | ⟨b10, data⟩ := data; · exact ⟨rfl, rfl, rfl⟩
  obtain _ | ⟨b11, data⟩ := data; · exact ⟨rfl, rfl, rfl⟩
  obtain _ | ⟨b12, data⟩ := data; · exact ⟨rfl, rfl, rfl⟩
  obtain _ | ⟨b13, data⟩ := data; · exact ⟨rfl, rfl, rfl⟩
  obtain _ | ⟨b14, data⟩ := data; · exact ⟨rfl, rfl, rfl⟩
  obtain _ | ⟨b15, data⟩ := data; · exact ⟨rfl, rfl, rfl⟩
  simp only [List.length_cons] at h; omega

theorem c10_short_input_raises_assertion_w :
    parse_header [0x4E] = .error .assertionError ∧
    make_file_info [0x4E] = .error .assertionError ∧
    file_handler_items [0x4E] = .aborted :=
  c10_short_input_raises_assertion [0x4E] (by decide)

/-- C8: a 16-byte-or-longer input that starts with the NES magic and has
the NES 2.0 generation bits (byte 7 & 0xC = 8) or the trainer bit (byte 6
bit 2) set makes parse_header raise SkipROM, never a partial record; an
input starting with the UNIF magic likewise raises SkipROM. -/
theorem c8_unsupported_formats_skip (data : List Nat) (hlen : 16 ≤ data.length) :
    (data.take 4 = [0x4E, 0x45, 0x53, 0x1A] →
      (data.getD 7 0) &&& 0xC = 8 ∨ (data.getD 6 0) &&& 4 ≠ 0 →
      ∃ msg, parse_header data = .error (.skipROM msg)) ∧
    (data.take 4 = [0x55, 0x4E, 0x49, 0x46] →
      ∃ msg, parse_header data = .error (.skipROM msg)) := by
  obtain ⟨b0, b1, b2, b3, b4, b5, b6, b7, b8, b9, b10, b11, b12, b13, b14, b15,
    rest, rfl⟩ := exists_cons_16 data hlen
  constructor
  · intro hm hbits
    have h4 : [b0, b1, b2, b3] = [0x4E, 0x45, 0x53, 0x1A] := hm
    injection h4 with e0 h4; injection h4 with e1 h4
    injection h4 with e2 h4; injection h4 with e3 _
    subst e0; subst e1; subst e2; subst e3
    simp only [parse_header]
    rw [if_neg (by decide), if_neg (by decide)]
    rcases hbits with h8 | h8
    · have h8c : b7 &&& 0xC = 8 := h8
      rw [if_pos h8c]
      exact ⟨_, rfl⟩
    · have h8t : b6 &&& 4 ≠ 0 := h8
      by_cases hc : b7 &&& 0xC = 8
      · rw [if_pos hc]; exact ⟨_, rfl⟩
      · rw [if_neg hc, if_pos h8t]; exact ⟨_, rfl⟩
  · intro hm
    have h4 : [b0, b1, b2, b3] = [0x55, 0x4E, 0x49, 0x46] := hm
    injection h4 with e0 h4; injection h4 with e1 h4
    injection h4 with e2 h4; injection h4 with e3 _
    subst e0; subst e1; subst e2; subst e3
    exact ⟨_, rfl⟩

theorem c8_unsupported_formats_skip_w :
    ∃ msg,
      parse_header [0x4E, 0x45, 0x53, 0x1A, 0, 0, 0, 8, 0, 0, 0, 0, 0, 0, 0, 0] =
        .error (.skipROM msg) :=
  (c8_unsupported_formats_skip
    [0x4E, 0x45, 0x53, 0x1A, 0, 0, 0, 8, 0, 0, 0, 0, 0, 0, 0, 0]
    (by decide)).1 (by decide) (Or.inl (by decide))

/-- C7 counterexample: an input beginning with the UNIF magic does not
begin with the NES magic, yet parse_header raises SkipROM for it instead of
returning "absent". -/
theorem c7_unif_input_is_not_absent :
    ([0x55, 0x4E, 0x49, 0x46] ++ List.replicate 12 0).take 4 ≠
      [0x4E, 0x45, 0x53, 0x1A] ∧
    parse_header ([0x55, 0x4E, 0x49, 0x46] ++ List.replicate 12 0) =
      .error (.skipROM "UNIF currently unsupported") ∧
    parse_header ([0x55, 0x4E, 0x49, 0x46] ++ List.replicate 12 0) ≠ .ok none := by
  refine ⟨by decide, rfl, ?_⟩
  intro hx
  exact Except.noConfusion hx

/-- C7 amended: for a 16-byte-or-longer entity starting with neither the
NES magic nor the UNIF magic, parse returns "absent" and the stored CRC32
is computed over the entity's entire raw bytes (the 16 inspected bytes
included); when a supported header parses, the CRC32 is computed over the
payload with the 16 leading header bytes excluded. -/
theorem c7_checksum_coverage (data : List Nat) (hlen : 16 ≤ data.length) :
    (data.take 4 ≠ [0x55, 0x4E, 0x49, 0x46] →
      data.take 4 ≠ [0x4E, 0x45, 0x53, 0x1A] →
      make_file_info data = .ok (none, binascii_crc32 data 0 &&& 0xFFFFFFFF)) ∧
    (∀ r, parse_header (data.take 16) = .ok (some r) →
      make_file_info data =
        .ok (some r, binascii_crc32 (data.drop 16) 0 &&& 0xFFFFFFFF)) := by
  constructor
  · intro hU hN
    obtain ⟨b0, b1, b2, b3, b4, b5, b6, b7, b8, b9, b10, b11, b12, b13, b14, b15,
      rest, rfl⟩ := exists_cons_16 data hlen
    apply make_file_info_of_parse_none
    have hU' : ¬([b0, b1, b2, b3] = [0x55, 0x4E, 0x49, 0x46]) := hU
    have hN' : [b0, b1, b2, b3] ≠ [0x4E, 0x45, 0x53, 0x1A] := hN
    show parse_header
      (b0 :: b1 :: b2 :: b3 :: b4 :: b5 :: b6 :: b7 :: b8 :: b9 ::
        b10 :: b11 :: b12 :: b13 :: b14 :: b15 :: []) = .ok none
    simp only [parse_header]
    rw [if_neg hU', if_pos hN']
  · intro r hr
    exact make_file_info_of_parse_some data r hr

theorem c7_checksum_coverage_w :
    make_file_info (List.replicate 16 0) =
      .ok (none, binascii_crc32 (List.replicate 16 0) 0 &&& 0xFFFFFFFF) :=
  (c7_checksum_coverage (List.replicate 16 0) (by decide)).1 (by decide) (by decide)

theorem mirroring_ignored_val_comm (x y : FieldVal) :
    mirroring_ignored_val x y = mirroring_ignored_val y x := by
  cases x <;> cases y <;>
    simp [mirroring_ignored_val, is_ignored_mirroring_diff, Nat.lor_comm]

theorem diffCond_symm (a b : ROMInfo) (attr : String) :
    diffCond b a attr ↔ diffCond a b attr := by
  unfold diffCond
  rw [mirroring_ignored_val_comm]
  constructor <;> rintro ⟨h1, h2⟩ <;> exact ⟨h1.symm, fun hc => h2 (by tauto)⟩

theorem diffEntry_symm (a b : ROMInfo) (attr : String) :
    ROMInfo.diffEntry b a attr =
      (ROMInfo.diffEntry a b attr).map (fun e => (e.1, e.2.2, e.2.1)) := by
  unfold ROMInfo.diffEntry
  by_cases h : diffCond a b attr
  · rw [if_pos ((diffCond_symm a b attr).mpr h), if_pos h]
    rfl
  · rw [if_neg (fun hc => h ((diffCond_symm a b attr).mp hc)), if_neg h]
    rfl

/-- C9: diff is symmetric — b.diff(a) reports exactly the fields of
a.diff(b), with each expected/actual value pair swapped, for all records;
the mirroring exception and the TV-timing "both" exception apply
identically in both directions. -/
theorem c9_diff_symmetric (a b : ROMInfo) :
    ROMInfo.diff b a = (ROMInfo.diff a b).map (fun e => (e.1, e.2.2, e.2.1)) := by
  unfold ROMInfo.diff
  rw [show ROMInfo.diffEntry b a =
      (fun attr => (ROMInfo.diffEntry a b attr).map (fun e => (e.1, e.2.2, e.2.1)))
    from funext (diffEntry_symm a b)]
  rw [← List.map_filterMap]

theorem remove_set_cancel (fs : FileSys) (temp : String)
    (c : List (String × List Nat)) (hfresh : fs temp = none) :
    removeFile (setFile fs temp c) temp = fs := by
  funext q
  unfold removeFile setFile
  by_cases hq : q = temp
  · subst hq; simp [hfresh]
  · simp [hq]

theorem remove_set_set_cancel (fs : FileSys) (temp : String)
    (c1 c2 : List (String × List Nat)) (hfresh : fs temp = none) :
    removeFile (setFile (setFile fs temp c1) temp c2) temp = fs := by
  funext q
  unfold removeFile setFile
  by_cases hq : q = temp
  · subst hq; simp [hfresh]
  · simp [hq]

/-- C6: the zip-archive update is atomic on failure.  If the call fails for
any reason — a representation error while encoding one member's header, or
leftover requests naming members not found during the rebuild — then the
resulting filesystem is exactly the one before the call: the original
archive's member list and bytes are untouched, the temporary archive has
been removed, and the final rename never happened.  `hfresh` says the
temporary file name is fresh, which NamedTemporaryFile guarantees. -/
theorem c6_zip_update_atomic (fs : FileSys) (path temp : String)
    (requests : List (String × ReqType × ROMInfo))
    (hfresh : fs temp = none) (e : String)
    (hfail : (zip_update fs path temp requests).2 = some e) :
    (zip_update fs path temp requests).1 = fs := by
  unfold zip_update at hfail ⊢
  rcases hsc : setFile fs temp [] path with _ | members
  · simp only [zip_open]
    exact remove_set_cancel fs temp [] hfresh
  · rw [hsc] at hfail
    simp only [zip_open] at hfail ⊢
    rcases hzr : zip_rebuild members requests [] with ⟨written, pendingLeft, err⟩
    rw [hzr] at hfail
    cases err
    · simp only [zip_finish] at hfail ⊢
      by_cases hpe : pendingLeft.isEmpty
      · rw [if_pos hpe] at hfail
        exact Option.noConfusion hfail
      · rw [if_neg hpe]
        exact remove_set_set_cancel fs temp [] written hfresh
    · simp only [zip_finish]
      exact remove_set_set_cancel fs temp [] written hfresh

theorem c6_zip_update_atomic_w :
    (zip_update sample_fs "roms.zip" "inestool-tmp"
      [("game.nes", ReqType.replace, { sample_record with mapper := 300 })]).1 =
      sample_fs ∧
    (zip_update sample_fs "roms.zip" "inestool-tmp"
      [("game.nes", ReqType.replace, { sample_record with mapper := 300 })]).2 =
      some "cannot represent mapper in iNES header" :=
  ⟨c6_zip_update_atomic sample_fs "roms.zip" "inestool-tmp"
      [("game.nes", ReqType.replace, { sample_record with mapper := 300 })]
      (by decide) "cannot represent mapper in iNES header" (by decide),
   by decide⟩

/-! Bounded bit-level facts about the two flag bytes, checked by
exhaustive evaluation. -/

set_option maxRecDepth 8000 in
theorem f7_bit_facts : ∀ m, m < 256 → ∀ pc vs : Bool,
    ((m &&& 0xF0) ||| (pc.toNat <<< 1) ||| vs.toNat) &&& 0xC = 0 ∧
    ((m &&& 0xF0) ||| (pc.toNat <<< 1) ||| vs.toNat) &&& 0xF0 = m &&& 0xF0 ∧
    ((((m &&& 0xF0) ||| (pc.toNat <<< 1) ||| vs.toNat) &&& 2 != 0) = pc) ∧
    ((((m &&& 0xF0) ||| (pc.toNat <<< 1) ||| vs.toNat) &&& 1 != 0) = vs) := by
  decide

set_option maxRecDepth 8000 in
theorem f6_bit_facts : ∀ m, m < 256 → ∀ mir ∈ ([0, 1, 8, 9] : List Nat), ∀ nv : Bool,
    (((m &&& 0xF) <<< 4) ||| (mir &&& 0xF) |||
      (Bool.toNat false <<< 2) ||| (nv.toNat <<< 1)) &&& 4 = 0 ∧
    (((m &&& 0xF) <<< 4) ||| (mir &&& 0xF) |||
      (Bool.toNat false <<< 2) ||| (nv.toNat <<< 1)) &&& 9 = mir ∧
    ((((m &&& 0xF) <<< 4) ||| (mir &&& 0xF) |||
      (Bool.toNat false <<< 2) ||| (nv.toNat <<< 1)) &&& 0xF0) >>> 4 = m &&& 0xF ∧
    ((((m &&& 0xF) <<< 4) ||| (mir &&& 0xF) |||
      (Bool.toNat false <<< 2) ||| (nv.toNat <<< 1)) &&& 2 != 0) = nv ∧
    ((((m &&& 0xF) <<< 4) ||| (mir &&& 0xF) |||
      (Bool.toNat false <<< 2) ||| (nv.toNat <<< 1)) &&& 4 != 0) = false := by
  decide

set_option maxRecDepth 8000 in
theorem mapper_nibbles : ∀ m, m < 256 → (m &&& 0xF0) + (m &&& 0xF) = m := by
  decide

set_option maxRecDepth 8000 in
theorem tv_low_bit : ∀ tv, tv < 3 → (tv &&& 1) &&& 1 = (if tv = 2 then 0 else tv) := by
  decide

/-- C2: the round-trip is broken as stated, and holds once the missing
padding is restored.  For every record with representable fields (sizes
exact multiples in range, mapper in [0,255], a wire-encodable mirroring
value, no trainer), make_ines_header succeeds but returns only 10 bytes, so
feeding its output straight back into parse_header fails the 16-byte
assertion; parsing the output padded with the six missing zero bytes
recovers the record exactly, except that the PRG-RAM size comes back
rounded up to the next multiple of 8192 and a TV timing of "both" comes
back as NTSC. -/
theorem c2_padded_roundtrip (r : ROMInfo)
    (hp0 : 0 ≤ r.prg_rom_size) (hp1 : r.prg_rom_size ≤ 0xFF * 16384)
    (hp2 : r.prg_rom_size % 16384 = 0)
    (hc0 : 0 ≤ r.chr_rom_size) (hc1 : r.chr_rom_size ≤ 0xFF * 8192)
    (hc2 : r.chr_rom_size % 8192 = 0)
    (hm0 : 0 ≤ r.mapper) (hm1 : r.mapper ≤ 255)
    (hr0 : 0 ≤ r.prg_ram_size) (hr1 : r.prg_ram_size ≤ 0xFF * 8192)
    (hmir : r.mirroring ∈ ([0, 1, 8, 9] : List Nat))
    (htr : r.has_trainer = false)
    (htv : r.tv_system < 3) :
    ∃ bs, make_ines_header r = .ok bs ∧ bs.length = 10 ∧
      parse_header bs = .error .assertionError ∧
      parse_header (bs ++ [0, 0, 0, 0, 0, 0]) =
        .ok (some { r with
          prg_ram_size := ((r.prg_ram_size + 8191) / 8192) * 8192,
          tv_system := if r.tv_system = TV_BOTH then TV_NTSC else r.tv_system }) ∧
      r.prg_ram_size ≤ ((r.prg_ram_size + 8191) / 8192) * 8192 ∧
      ((r.prg_ram_size + 8191) / 8192) * 8192 < r.prg_ram_size + 8192 ∧
      ((r.prg_ram_size + 8191) / 8192) * 8192 % 8192 = 0 := by
  have hbs : make_ines_header r = .ok [0x4E, 0x45, 0x53, 0x1A,
      (r.prg_rom_size / 16384).toNat, (r.chr_rom_size / 8192).toNat,
      ((r.mapper.toNat &&& 0xF) <<< 4) ||| (r.mirroring &&& 0xF) |||
        (r.has_trainer.toNat <<< 2) ||| (r.has_nvram.toNat <<< 1),
      (r.mapper.toNat &&& 0xF0) ||| (r.is_playchoice_10.toNat <<< 1) |||
        r.is_vs_unisystem.toNat,
      ((r.prg_ram_size + 8191) / 8192).toNat, r.tv_system &&& 1] := by
    unfold make_ines_header
    rw [if_neg (by omega), if_neg (by omega), if_neg (by omega), if_neg (by omega)]
  have hm256 : r.mapper.toNat < 256 := by omega
  have h7 := f7_bit_facts r.mapper.toNat hm256 r.is_playchoice_10 r.is_vs_unisystem
  have h6 := f6_bit_facts r.mapper.toNat hm256 r.mirroring hmir r.has_nvram
  refine ⟨_, hbs, rfl, rfl, ?_, by omega, by omega, by omega⟩
  rw [htr]
  simp only [List.cons_append, List.nil_append, parse_header]
  rw [if_neg (by decide), if_neg (by decide)]
  rw [if_neg (by rw [h7.1]; omega), if_neg (by rw [h6.1]; simp)]
  simp only [Except.ok.injEq, Option.some.injEq, ROMInfo.mk.injEq]
  refine ⟨?_, ?_, ?_, ?_, ?_, ?_, ?_, ?_, ?_, ?_⟩
  · omega
  · omega
  · omega
  · rw [h7.2.1, h6.2.2.1, mapper_nibbles r.mapper.toNat hm256]
    omega
  · exact h6.2.1
  · exact tv_low_bit r.tv_system htv
  · exact h6.2.2.2.1
  · exact h6.2.2.2.2
  · exact h7.2.2.1
  · exact h7.2.2.2

theorem c2_padded_roundtrip_w :
    ∃ bs, make_ines_header lossy_record = .ok bs ∧ bs.length = 10 ∧
      parse_header bs = .error .assertionError ∧
      parse_header (bs ++ [0, 0, 0, 0, 0, 0]) =
        .ok (some { lossy_record with
          prg_ram_size := ((lossy_record.prg_ram_size + 8191) / 8192) * 8192,
          tv_system := if lossy_record.tv_system = TV_BOTH then TV_NTSC
            else lossy_record.tv_system }) ∧
      lossy_record.prg_ram_size ≤
        ((lossy_record.prg_ram_size + 8191) / 8192) * 8192 ∧
      ((lossy_record.prg_ram_size + 8191) / 8192) * 8192 <
        lossy_record.prg_ram_size + 8192 ∧
      ((lossy_record.prg_ram_size + 8191) / 8192) * 8192 % 8192 = 0 :=
  c2_padded_roundtrip lossy_record (by decide) (by decide) (by decide) (by decide)
    (by decide) (by decide) (by decide) (by decide) (by decide) (by decide)
    (by decide) (by decide) (by decide)

end Inestool
